import Mathlib

/-!
Shallow embedding of the portfolio backend (Django + Celery glue code):
chat tasks (backend/chat/tasks.py), chat views (backend/chat/views.py) and
account views (backend/accounts/views.py). External fallible operations
(ORM fetches and saves, the AI service call) are parameterised by an
outcome record saying which of them fail; cache writes are recorded as an
explicit event trace so that temporal properties of the status cache can
be stated.
-/

namespace Portfolio

/-- Response dict returned by ChatAIService.generate_response. -/
structure AIResponseData where
  response : String
  tokens_used : Nat
  model_used : String
  sources : List String
deriving DecidableEq

/-- A ChatMessage row, restricted to the fields the task writes. -/
structure ChatMessageRow where
  session : Nat
  content : String
  is_from_user : Bool
  tokens_used : Nat
deriving DecidableEq

/-- A ChatSession row, restricted to the aggregate counters the task updates. -/
structure SessionRow where
  id : Nat
  message_count : Nat
  total_tokens_used : Nat
deriving DecidableEq

/-- Which of the fallible external operations of generate_ai_response succeed.
The AI service either returns a response dict or raises (none). -/
structure GenOutcome where
  sessionGetOk : Bool
  userMsgGetOk : Bool
  aiResult : Option AIResponseData
  createOk : Bool
  saveOk : Bool
  fallbackCreateOk : Bool
  fallbackSaveOk : Bool
deriving DecidableEq

/-- Events of one run of generate_ai_response, recorded when the
corresponding operation completes. -/
inductive TaskEvent where
  | fetchSession
  | fetchMessage
  | cacheWrite (statusField : String) (timeout : Nat)
  | aiCall
  | persistMessage (is_from_user : Bool)
  | sessionSave
deriving DecidableEq

/-- Observable result of one run of generate_ai_response: the event trace,
the session row as last saved to the database, the ChatMessage rows created,
whether the except-block was entered, whether the fallback ChatMessage
create was attempted, whether an exception escaped the task, and the
'status' entry of the returned dict (none when the task raised). -/
structure TaskResult where
  events : List TaskEvent
  dbSession : SessionRow
  newMessages : List ChatMessageRow
  handlerEntered : Bool
  fallbackAttempted : Bool
  raised : Bool
  retStatus : Option String
deriving DecidableEq

/-- Content of the fallback error ChatMessage (tasks.py line 86). -/
def fallbackErrorContent : String :=
  "I apologize, but I\x27m having trouble processing your request right now. Please try again in a moment."

/-- The except-block of generate_ai_response (tasks.py lines 73-107): write an
error blob to the cache, then try to persist a fallback AI message, bump
message_count on the in-memory session, save it and write a second error blob;
an exception inside this inner try is swallowed. `mem` is the in-memory
session (which already carries the line 52-53 increments when the failure was
the success-path save), `dbSess` the session as currently saved. -/
def errorPathRun (o : GenOutcome) (evs0 : List TaskEvent) (mem dbSess : SessionRow)
    (msgs0 : List ChatMessageRow) : TaskResult :=
  let evs1 := evs0 ++ [TaskEvent.cacheWrite "error" 300]
  if o.fallbackCreateOk then
    let fmsg : ChatMessageRow :=
      { session := mem.id, content := fallbackErrorContent,
        is_from_user := false, tokens_used := 0 }
    let mem1 : SessionRow := { mem with message_count := mem.message_count + 1 }
    if o.fallbackSaveOk then
      { events := evs1 ++ [TaskEvent.persistMessage false, TaskEvent.sessionSave,
          TaskEvent.cacheWrite "error" 300],
        dbSession := mem1, newMessages := msgs0 ++ [fmsg],
        handlerEntered := true, fallbackAttempted := true, raised := false,
        retStatus := some "error" }
    else
      { events := evs1 ++ [TaskEvent.persistMessage false],
        dbSession := dbSess, newMessages := msgs0 ++ [fmsg],
        handlerEntered := true, fallbackAttempted := true, raised := false,
        retStatus := some "error" }
  else
    { events := evs1, dbSession := dbSess, newMessages := msgs0,
      handlerEntered := true, fallbackAttempted := true, raised := false,
      retStatus := some "error" }

/-- The body of the Celery task generate_ai_response (tasks.py lines 10-107),
as a function of which external operations succeed and of the initial state of
the owning session row. When the session or user-message fetch fails, the
except-block is entered but its first statement reads the still-unassigned
cache_key local (assigned only on line 18, after both fetches), so a NameError
escapes the task: no cache write and no fallback attempt happen. -/
def generate_ai_response (o : GenOutcome) (sess : SessionRow) : TaskResult :=
  if o.sessionGetOk then
    if o.userMsgGetOk then
      let evs0 := [TaskEvent.fetchSession, TaskEvent.fetchMessage,
        TaskEvent.cacheWrite "processing" 300]
      match o.aiResult with
      | some rd =>
        let evs1 := evs0 ++ [TaskEvent.aiCall]
        if o.createOk then
          let aimsg : ChatMessageRow :=
            { session := sess.id, content := rd.response,
              is_from_user := false, tokens_used := rd.tokens_used }
          let evs2 := evs1 ++ [TaskEvent.persistMessage false]
          let mem : SessionRow :=
            { sess with message_count := sess.message_count + 1,
                        total_tokens_used := sess.total_tokens_used + rd.tokens_used }
          if o.saveOk then
            { events := evs2 ++ [TaskEvent.sessionSave, TaskEvent.cacheWrite "completed" 300],
              dbSession := mem, newMessages := [aimsg],
              handlerEntered := false, fallbackAttempted := false, raised := false,
              retStatus := some "success" }
          else
            errorPathRun o evs2 mem sess [aimsg]
        else
          errorPathRun o evs1 sess sess []
      | none => errorPathRun o evs0 sess sess []
    else
      { events := [TaskEvent.fetchSession], dbSession := sess, newMessages := [],
        handlerEntered := true, fallbackAttempted := false, raised := true,
        retStatus := none }
  else
    { events := [], dbSession := sess, newMessages := [],
      handlerEntered := true, fallbackAttempted := false, raised := true,
      retStatus := none }

/-- The (status, timeout) pairs of the cache writes of a run, in order. -/
def statusWrites (r : TaskResult) : List (String × Nat) :=
  r.events.filterMap fun e =>
    match e with
    | TaskEvent.cacheWrite s t => some (s, t)
    | _ => none

/-- The cache writes strictly after the first write whose status is
'processing'. -/
def writesAfterProcessing (r : TaskResult) : List (String × Nat) :=
  ((statusWrites r).dropWhile (fun p => p.1 ≠ "processing")).drop 1

/-- A status value is terminal when it is 'completed' or 'error'. -/
def terminalStatus (s : String) : Bool :=
  s = "completed" || s = "error"

/-- Tokens used by the generation of a run: the tokens_used entry of the AI
response dict, 0 when the AI call raised. -/
def tokensOfGeneration (o : GenOutcome) : Nat :=
  match o.aiResult with
  | some rd => rd.tokens_used
  | none => 0

/-- Claim C1 as stated, at one execution: after the 'processing' write exactly
one further status write occurs, and no write changes a terminal status again. -/
def claimC1At (o : GenOutcome) (sess : SessionRow) : Prop :=
  ("processing", 300) ∈ statusWrites (generate_ai_response o sess) →
    ((writesAfterProcessing (generate_ai_response o sess)).length = 1 ∧
      (statusWrites (generate_ai_response o sess)).Pairwise
        (fun p q => terminalStatus p.1 = true → q.1 = p.1))

/-- Claim C2 as stated, at one execution: both session counters are
incremented exactly once, message_count by 1 and total_tokens_used by the
tokens used by the generation. -/
def claimC2At (o : GenOutcome) (sess : SessionRow) : Prop :=
  (generate_ai_response o sess).dbSession.message_count = sess.message_count + 1 ∧
  (generate_ai_response o sess).dbSession.total_tokens_used =
    sess.total_tokens_used + tokensOfGeneration o

/-- An outcome in which every external operation succeeds. -/
def successOutcome (o : GenOutcome) : Prop :=
  o.sessionGetOk = true ∧ o.userMsgGetOk = true ∧ o.aiResult.isSome ∧
  o.createOk = true ∧ o.saveOk = true

/-- A sample AI response dict, for concrete instantiations. -/
def sampleAI : AIResponseData :=
  { response := "hi", tokens_used := 5, model_used := "m", sources := [] }

/-- A sample all-successful outcome, for concrete instantiations. -/
def sampleSuccess : GenOutcome :=
  { sessionGetOk := true, userMsgGetOk := true, aiResult := some sampleAI,
    createOk := true, saveOk := true, fallbackCreateOk := true,
    fallbackSaveOk := true }

/-- A sample session row, for concrete instantiations. -/
def sampleSession : SessionRow :=
  { id := 1, message_count := 0, total_tokens_used := 0 }

instance : DecidablePred successOutcome := fun o => by
  unfold successOutcome
  infer_instance

/-! Embedding of backend/chat/views.py -/

/-- Python truthiness of an optional string (None and the empty string are
falsy). -/
def pyTruthy : Option String → Bool
  | none => false
  | some s => !(s == "")

/-- Python `a or b` for an optional string `a` and a string default `b`
(views.py line 96: request.session.session_key or str(uuid.uuid4())). -/
def pyOrStr : Option String → String → String
  | none, d => d
  | some s, d => if s == "" then d else s

/-- A ChatSession row as the views see it. -/
structure ChatSessionRow where
  id : Nat
  user : Option Nat
  session_id : String
  audience_tag : String
  persona_tone : String
  message_count : Nat
deriving DecidableEq

/-- A ChatMessage row as the views create it. -/
structure MsgRow where
  id : Nat
  session : Nat
  content : String
  is_from_user : Bool
deriving DecidableEq

/-- The chat database: session rows, message rows, and autoincrement
counters used to assign fresh primary keys. -/
structure ChatDb where
  sessions : List ChatSessionRow
  messages : List MsgRow
  nextSessionId : Nat
  nextMessageId : Nat
deriving DecidableEq

/-- A chat query request: serializer validity, validated fields, and ambient
request data (authentication, browser session key, and the uuid4 value drawn
when a fresh session id is needed). -/
structure ChatRequest where
  valid : Bool
  query : String
  req_session_id : Option Nat
  audience : String
  tone : String
  isAuthenticated : Bool
  userId : Nat
  sessionKey : Option String
  freshUuid : String
deriving DecidableEq

/-- A task enqueued by the view (generate_ai_response.delay or
track_event.delay). -/
inductive Enqueued where
  | genAI (sid : Nat) (user_message_id : Nat) (query : String)
  | trackEvent (etype : String)
deriving DecidableEq

/-- The response of ChatQueryView.post: serializer errors (400) or the
success body with the ids the client needs. -/
inductive QueryResponse where
  | badRequest
  | ok (session_id : Nat) (user_message_id : Nat) (statusField : String)
      (message_count : Nat)
deriving DecidableEq

/-- Result of a ChatQueryView.post run: final database, enqueued tasks in
order, and the HTTP response. -/
structure PostOutcome where
  db : ChatDb
  queue : List Enqueued
  response : QueryResponse
deriving DecidableEq

/-- ChatQueryView.create_session (views.py lines 92-99). -/
def create_session (r : ChatRequest) (db : ChatDb) : ChatSessionRow × ChatDb :=
  let row : ChatSessionRow :=
    { id := db.nextSessionId,
      user := if r.isAuthenticated then some r.userId else none,
      session_id := pyOrStr r.sessionKey r.freshUuid,
      audience_tag := r.audience,
      persona_tone := r.tone,
      message_count := 0 }
  (row, { db with sessions := db.sessions ++ [row],
                  nextSessionId := db.nextSessionId + 1 })

/-- The get-or-create step of ChatQueryView.post (views.py lines 41-47):
reuse the session when the supplied id exists, otherwise create one. -/
def getOrCreateSession (r : ChatRequest) (db : ChatDb) : ChatSessionRow × ChatDb :=
  match r.req_session_id with
  | some sid =>
    match db.sessions.find? (fun s => s.id == sid) with
    | some s => (s, db)
    | none => create_session r db
  | none => create_session r db

/-- ChatQueryView.post (views.py lines 27-90): validate, get or create the
session, create the user message row, bump and save the session
message_count, enqueue the generation task and the analytics task, and
respond with the ids to poll. -/
def chatQueryPost (r : ChatRequest) (db : ChatDb) : PostOutcome :=
  if r.valid then
    let sdb : ChatSessionRow × ChatDb := getOrCreateSession r db
    let session := sdb.1
    let db1 := sdb.2
    let umsg : MsgRow :=
      { id := db1.nextMessageId, session := session.id,
        content := r.query, is_from_user := true }
    let db2 := { db1 with messages := db1.messages ++ [umsg],
                          nextMessageId := db1.nextMessageId + 1 }
    let session1 := { session with message_count := session.message_count + 1 }
    let db3 := { db2 with
      sessions := db2.sessions.map
        (fun s => if s.id == session1.id then session1 else s) }
    { db := db3,
      queue := [Enqueued.genAI session.id umsg.id r.query,
                Enqueued.trackEvent "chat_query"],
      response := QueryResponse.ok session.id umsg.id "processing"
        session1.message_count }
  else
    { db := db, queue := [], response := QueryResponse.badRequest }

/-- A sample valid anonymous chat request, for concrete instantiations. -/
def sampleChatReq : ChatRequest :=
  { valid := true, query := "hello", req_session_id := none,
    audience := "general", tone := "professional", isAuthenticated := false,
    userId := 0, sessionKey := none, freshUuid := "u1" }

/-- An empty chat database, for concrete instantiations. -/
def emptyChatDb : ChatDb :=
  { sessions := [], messages := [], nextSessionId := 0, nextMessageId := 0 }

/-- The cache key for a message id (tasks.py line 18, views.py line 107). -/
def aiResponseKey (message_id : String) : String :=
  "ai_response_" ++ message_id

/-- A cached status blob as the polling view sees it. -/
structure CachedStatus where
  statusField : String
  payload : List (String × String)
deriving DecidableEq

/-- The response of ChatResponseStatusView.get. -/
inductive StatusGetResult where
  | notFound (httpStatus : Nat) (statusField : String) (message : String)
  | found (blob : CachedStatus)
deriving DecidableEq

/-- ChatResponseStatusView.get (views.py lines 106-116): read the cache at
the key derived from the message id; a miss yields 404 with status
'not_found', a hit returns the blob unchanged. -/
def chatResponseStatusGet (cacheState : String → Option CachedStatus)
    (message_id : String) : StatusGetResult :=
  match cacheState (aiResponseKey message_id) with
  | none => StatusGetResult.notFound 404 "not_found" "Response not found or expired"
  | some b => StatusGetResult.found b

/-- ChatHistoryView.get_queryset (views.py lines 121-128). -/
def chatHistoryQueryset (isAuth : Bool) (userId : Nat) (sessionKey : Option String)
    (sessions : List ChatSessionRow) : List ChatSessionRow :=
  if isAuth then
    sessions.filter (fun s => s.user == some userId)
  else if pyTruthy sessionKey then
    sessions.filter (fun s => s.session_id == sessionKey.getD "")
  else
    []

/-- ChatSessionView.get_queryset (views.py lines 137-144); same body as
ChatHistoryView.get_queryset. -/
def chatSessionQueryset (isAuth : Bool) (userId : Nat) (sessionKey : Option String)
    (sessions : List ChatSessionRow) : List ChatSessionRow :=
  if isAuth then
    sessions.filter (fun s => s.user == some userId)
  else if pyTruthy sessionKey then
    sessions.filter (fun s => s.session_id == sessionKey.getD "")
  else
    []

/-! Embedding of backend/accounts/views.py (password reset endpoints) -/

/-- A User row, restricted to the fields the reset endpoints touch. -/
structure UserRow where
  id : Nat
  email : String
  is_active : Bool
  password : String
deriving DecidableEq

/-- A PasswordResetToken row. created_at is seconds on an absolute clock. -/
structure ResetTokenRow where
  userId : Nat
  token : String
  is_used : Bool
  created_at : Int
deriving DecidableEq

/-- The accounts database. -/
structure AccountsDb where
  users : List UserRow
  resetTokens : List ResetTokenRow
deriving DecidableEq

/-- Django Model.objects.get semantics: exactly one row matching the filter,
DoesNotExist on zero rows, MultipleObjectsReturned on more. -/
inductive GetResult (α : Type) where
  | one (x : α)
  | zero
  | many
deriving DecidableEq

/-- Evaluate objects.get for a filter over a list of rows. -/
def djangoGet {α : Type} (l : List α) (p : α → Bool) : GetResult α :=
  match l.filter p with
  | [] => GetResult.zero
  | [x] => GetResult.one x
  | _ => GetResult.many

/-- The filter of PasswordResetConfirmView.post (views.py lines 187-191):
token equality, unused, and created within the last hour. -/
def resetTokenMatches (now : Int) (token : String) (t : ResetTokenRow) : Bool :=
  t.token == token && t.is_used == false && decide (t.created_at ≥ now - 3600)

/-- The response of PasswordResetConfirmView.post. serverError stands for an
exception the view does not catch (only DoesNotExist is caught). -/
inductive ConfirmResponse where
  | success
  | invalidToken
  | badRequest
  | serverError
deriving DecidableEq

/-- PasswordResetConfirmView.post (views.py lines 180-206): on a valid
serializer, fetch the single unused fresh token matching the supplied string,
set the owner's password, mark the token used; DoesNotExist yields the 400
invalid-token response and no write. -/
def passwordResetConfirm (valid : Bool) (now : Int) (token password : String)
    (db : AccountsDb) : AccountsDb × ConfirmResponse :=
  if valid then
    match djangoGet db.resetTokens (resetTokenMatches now token) with
    | GetResult.one t =>
      match djangoGet db.users (fun u => u.id == t.userId) with
      | GetResult.one u =>
        ({ db with
            users := db.users.map
              (fun v => if v.id == u.id then { v with password := password } else v),
            resetTokens := db.resetTokens.map
              (fun s => if s == t then { s with is_used := true } else s) },
          ConfirmResponse.success)
      | _ => (db, ConfirmResponse.serverError)
    | GetResult.zero => (db, ConfirmResponse.invalidToken)
    | GetResult.many => (db, ConfirmResponse.serverError)
  else
    (db, ConfirmResponse.badRequest)

/-- The constant success body of PasswordResetRequestView.post. -/
def resetRequestMessage : String :=
  "If an account with that email exists, a password reset link has been sent."

/-- The response of PasswordResetRequestView.post. -/
inductive RequestResponse where
  | okMessage (message : String)
  | badRequest
  | serverError
deriving DecidableEq

/-- Result of a PasswordResetRequestView.post run: final database, enqueued
send_password_reset_email tasks as (user id, token) pairs, and the response. -/
structure ResetRequestOutcome where
  db : AccountsDb
  queue : List (Nat × String)
  response : RequestResponse
deriving DecidableEq

/-- PasswordResetRequestView.post (views.py lines 150-173): on a valid
serializer, look up the active user by email; when found, create a reset
token (the uuid4 draw is the freshToken argument) and enqueue the reset
email; DoesNotExist is swallowed; either way the same success body is
returned. -/
def passwordResetRequest (valid : Bool) (email freshToken : String) (now : Int)
    (db : AccountsDb) : ResetRequestOutcome :=
  if valid then
    match djangoGet db.users (fun u => u.email == email && u.is_active) with
    | GetResult.one u =>
      let row : ResetTokenRow :=
        { userId := u.id, token := freshToken, is_used := false, created_at := now }
      { db := { db with resetTokens := db.resetTokens ++ [row] },
        queue := [(u.id, freshToken)],
        response := RequestResponse.okMessage resetRequestMessage }
    | GetResult.zero =>
      { db := db, queue := [], response := RequestResponse.okMessage resetRequestMessage }
    | GetResult.many =>
      { db := db, queue := [], response := RequestResponse.serverError }
  else
    { db := db, queue := [], response := RequestResponse.badRequest }

/-- A sample accounts database holding one user and one fresh unused reset
token, for concrete instantiations. -/
def sampleAccountsDb : AccountsDb :=
  { users := [{ id := 1, email := "a@b.c", is_active := true, password := "old" }],
    resetTokens :=
      [{ userId := 1, token := "tok", is_used := false, created_at := 1000 }] }

/-! Theorems -/

/-- Claim C1 fails on the code as stated: when the AI call raises and the
fallback message is persisted, the task writes the error blob twice
(tasks.py lines 75 and 94), so after the 'processing' write two further
status writes occur, not exactly one. -/
theorem C1_counterexample :
    ¬ claimC1At
      { sessionGetOk := true, userMsgGetOk := true, aiResult := none,
        createOk := true, saveOk := true, fallbackCreateOk := true,
        fallbackSaveOk := true }
      { id := 1, message_count := 0, total_tokens_used := 0 } := by
  unfold claimC1At
  decide

/-- Claim C1 (amended): after the 'processing' write, one or two further
status writes occur, every one of them carries a terminal status
('completed' or 'error'), and all of them carry the same status, so no
write ever changes a terminal status once written. -/
theorem C1_status_transitions (o : GenOutcome) (sess : SessionRow)
    (h : ("processing", 300) ∈ statusWrites (generate_ai_response o sess)) :
    ((writesAfterProcessing (generate_ai_response o sess)).length = 1 ∨
      (writesAfterProcessing (generate_ai_response o sess)).length = 2) ∧
    (∀ p ∈ writesAfterProcessing (generate_ai_response o sess),
      terminalStatus p.1 = true) ∧
    (∀ p ∈ writesAfterProcessing (generate_ai_response o sess),
      ∀ q ∈ writesAfterProcessing (generate_ai_response o sess), p.1 = q.1) := by
  obtain ⟨sg, ug, ai, co, so, fc, fs⟩ := o
  cases sg <;> cases ug <;> cases ai <;> cases co <;> cases so <;> cases fc <;>
    cases fs <;>
    simp_all [generate_ai_response, errorPathRun, statusWrites,
      writesAfterProcessing, terminalStatus]

/-- Witness for C1_status_transitions at a concrete successful run. -/
theorem C1_status_transitions_witness :
    ((writesAfterProcessing (generate_ai_response sampleSuccess sampleSession)).length = 1 ∨
      (writesAfterProcessing (generate_ai_response sampleSuccess sampleSession)).length = 2) ∧
    (∀ p ∈ writesAfterProcessing (generate_ai_response sampleSuccess sampleSession),
      terminalStatus p.1 = true) ∧
    (∀ p ∈ writesAfterProcessing (generate_ai_response sampleSuccess sampleSession),
      ∀ q ∈ writesAfterProcessing (generate_ai_response sampleSuccess sampleSession),
        p.1 = q.1) :=
  C1_status_transitions sampleSuccess sampleSession (by decide)

/-- Claim C2 fails on the code as stated: when the AI call succeeds (here
using 100 tokens) but the AI-message insert fails, the except-block bumps
message_count (tasks.py line 91) yet never adds the generation's tokens to
total_tokens_used, so the counter is not incremented by the tokens used. -/
theorem C2_counterexample :
    ¬ claimC2At
      { sessionGetOk := true, userMsgGetOk := true,
        aiResult :=
          some { response := "ok", tokens_used := 100, model_used := "m", sources := [] },
        createOk := false, saveOk := true, fallbackCreateOk := true,
        fallbackSaveOk := true }
      { id := 1, message_count := 5, total_tokens_used := 7 } := by
  unfold claimC2At
  decide

/-- Claim C2 (amended): on the success path both counters are updated
exactly once, message_count by 1 and total_tokens_used by the generation's
tokens; when the AI call or the AI-message insert fails and the fallback
message is persisted, message_count is incremented by 1 and
total_tokens_used is unchanged. -/
theorem C2_session_counters (o : GenOutcome) (sess : SessionRow) :
    (successOutcome o →
      (generate_ai_response o sess).dbSession =
        { id := sess.id, message_count := sess.message_count + 1,
          total_tokens_used := sess.total_tokens_used + tokensOfGeneration o }) ∧
    (o.sessionGetOk = true → o.userMsgGetOk = true →
      o.fallbackCreateOk = true → o.fallbackSaveOk = true →
      (o.aiResult = none ∨ o.createOk = false) →
      (generate_ai_response o sess).dbSession =
        { id := sess.id, message_count := sess.message_count + 1,
          total_tokens_used := sess.total_tokens_used }) := by
  obtain ⟨sg, ug, ai, co, so, fc, fs⟩ := o
  cases sg <;> cases ug <;> cases ai <;> cases co <;> cases so <;> cases fc <;>
    cases fs <;>
    simp_all [generate_ai_response, errorPathRun, successOutcome,
      tokensOfGeneration]

/-- Witness for C2_session_counters at a concrete run whose AI call raises. -/
theorem C2_session_counters_witness :
    (generate_ai_response
      { sessionGetOk := true, userMsgGetOk := true, aiResult := none,
        createOk := true, saveOk := true, fallbackCreateOk := true,
        fallbackSaveOk := true }
      { id := 1, message_count := 5, total_tokens_used := 7 }).dbSession =
      { id := 1, message_count := 6, total_tokens_used := 7 } :=
  (C2_session_counters _ _).2 rfl rfl rfl rfl (Or.inl rfl)

/-- Claim C3: in every run whose generation (the AI service call) raises,
the task still attempts to persist a fallback AI-authored error ChatMessage,
and when that insert succeeds the created row belongs to the session, is not
from the user, and carries the apology content. -/
theorem C3_error_fallback_message (o : GenOutcome) (sess : SessionRow)
    (h1 : o.sessionGetOk = true) (h2 : o.userMsgGetOk = true)
    (h3 : o.aiResult = none) :
    (generate_ai_response o sess).fallbackAttempted = true ∧
    (o.fallbackCreateOk = true →
      ∃ m ∈ (generate_ai_response o sess).newMessages,
        m.is_from_user = false ∧ m.session = sess.id ∧
        m.content = fallbackErrorContent) := by
  obtain ⟨sg, ug, ai, co, so, fc, fs⟩ := o
  cases sg <;> cases ug <;> cases ai <;> cases co <;> cases so <;> cases fc <;>
    cases fs <;>
    simp_all [generate_ai_response, errorPathRun]

/-- Witness for C3_error_fallback_message at a concrete failing run. -/
theorem C3_error_fallback_message_witness :
    (generate_ai_response
      { sessionGetOk := true, userMsgGetOk := true, aiResult := none,
        createOk := true, saveOk := true, fallbackCreateOk := true,
        fallbackSaveOk := false }
      { id := 2, message_count := 3, total_tokens_used := 4 }).fallbackAttempted
        = true ∧
    ((true : Bool) = true →
      ∃ m ∈ (generate_ai_response
        { sessionGetOk := true, userMsgGetOk := true, aiResult := none,
          createOk := true, saveOk := true, fallbackCreateOk := true,
          fallbackSaveOk := false }
        { id := 2, message_count := 3, total_tokens_used := 4 }).newMessages,
        m.is_from_user = false ∧ m.session = 2 ∧
        m.content = fallbackErrorContent) :=
  C3_error_fallback_message _ _ rfl rfl rfl

/-- Claim C5: every cache write of every run of generate_ai_response uses the
fixed 300 second timeout; a fully successful run performs, in order, the
record fetches, the processing cache write, the AI call, the persist of the
AI message, the session save and the completed cache write; and every run in
which some step fails enters the catch-all error handler. -/
theorem C5_task_sequence (o : GenOutcome) (sess : SessionRow) :
    ((statusWrites (generate_ai_response o sess)).all (fun p => p.2 == 300) = true) ∧
    (successOutcome o →
      (generate_ai_response o sess).events =
        [TaskEvent.fetchSession, TaskEvent.fetchMessage,
         TaskEvent.cacheWrite "processing" 300, TaskEvent.aiCall,
         TaskEvent.persistMessage false, TaskEvent.sessionSave,
         TaskEvent.cacheWrite "completed" 300]) ∧
    (¬ successOutcome o → (generate_ai_response o sess).handlerEntered = true) := by
  obtain ⟨sg, ug, ai, co, so, fc, fs⟩ := o
  cases sg <;> cases ug <;> cases ai <;> cases co <;> cases so <;> cases fc <;>
    cases fs <;>
    simp_all [generate_ai_response, errorPathRun, successOutcome, statusWrites]

/-- Witness for C5_task_sequence at a concrete successful run. -/
theorem C5_task_sequence_witness :
    (generate_ai_response sampleSuccess sampleSession).events =
      [TaskEvent.fetchSession, TaskEvent.fetchMessage,
       TaskEvent.cacheWrite "processing" 300, TaskEvent.aiCall,
       TaskEvent.persistMessage false, TaskEvent.sessionSave,
       TaskEvent.cacheWrite "completed" 300] :=
  (C5_task_sequence sampleSuccess sampleSession).2.1 (by decide)

/-- Claim C4: for every valid chat query, a user message row holding the query
is created and stored before the response is returned, the generation task is
enqueued with that row's id, and the response body carries that id for the
client to poll. -/
theorem C4_query_flow (r : ChatRequest) (db : ChatDb)
    (hv : r.valid = true)
    (hfresh : ∀ m ∈ db.messages, m.id < db.nextMessageId) :
    ∃ m : MsgRow,
      m ∈ (chatQueryPost r db).db.messages ∧
      m ∉ db.messages ∧
      m.is_from_user = true ∧
      m.content = r.query ∧
      (∃ mc, (chatQueryPost r db).response =
        QueryResponse.ok m.session m.id "processing" mc) ∧
      Enqueued.genAI m.session m.id r.query ∈ (chatQueryPost r db).queue := by
  have hpreserve : (getOrCreateSession r db).2.messages = db.messages ∧
      (getOrCreateSession r db).2.nextMessageId = db.nextMessageId := by
    unfold getOrCreateSession
    rcases r.req_session_id with _ | sid
    · simp [create_session]
    · rcases hf : db.sessions.find? (fun s => s.id == sid) with _ | s <;>
        simp [hf, create_session]
  refine ⟨{ id := (getOrCreateSession r db).2.nextMessageId,
            session := (getOrCreateSession r db).1.id,
            content := r.query, is_from_user := true }, ?_, ?_, rfl, rfl, ?_, ?_⟩
  · simp [chatQueryPost, hv]
  · intro hmem
    have h2 := hfresh _ hmem
    simp only [hpreserve.2] at h2
    exact absurd h2 (lt_irrefl _)
  · refine ⟨(getOrCreateSession r db).1.message_count + 1, ?_⟩
    simp [chatQueryPost, hv]
  · simp [chatQueryPost, hv]

/-- Witness for C4_query_flow at a concrete valid request on an empty
database. -/
theorem C4_query_flow_witness :
    ∃ m : MsgRow,
      m ∈ (chatQueryPost sampleChatReq emptyChatDb).db.messages ∧
      m ∉ emptyChatDb.messages ∧
      m.is_from_user = true ∧
      m.content = "hello" ∧
      (∃ mc, (chatQueryPost sampleChatReq emptyChatDb).response =
        QueryResponse.ok m.session m.id "processing" mc) ∧
      Enqueued.genAI m.session m.id "hello" ∈
        (chatQueryPost sampleChatReq emptyChatDb).queue :=
  C4_query_flow sampleChatReq emptyChatDb rfl (by simp [emptyChatDb])

/-- Claim C6: the polling view reads the cache at the key derived from the
message id; a miss yields HTTP 404 with status 'not_found', and a hit returns
the cached blob unchanged. -/
theorem C6_status_poll (cacheState : String → Option CachedStatus)
    (message_id : String) :
    (cacheState (aiResponseKey message_id) = none →
      chatResponseStatusGet cacheState message_id =
        StatusGetResult.notFound 404 "not_found" "Response not found or expired") ∧
    (∀ b, cacheState (aiResponseKey message_id) = some b →
      chatResponseStatusGet cacheState message_id = StatusGetResult.found b) := by
  constructor
  · intro h
    simp [chatResponseStatusGet, h]
  · intro b h
    simp [chatResponseStatusGet, h]

/-- Witness for C6_status_poll: polling an empty cache yields the 404
not-found response. -/
theorem C6_status_poll_witness :
    chatResponseStatusGet (fun _ => none) "42" =
      StatusGetResult.notFound 404 "not_found" "Response not found or expired" :=
  (C6_status_poll (fun _ => none) "42").1 rfl

/-- Claim C7: a session built by ChatQueryView.create_session is owned by the
authenticated user when the request is authenticated; otherwise its user
field is empty and its session_id is the request's browser session key when
one exists (and is nonempty), or the fresh uuid4 draw when not. -/
theorem C7_session_ownership (r : ChatRequest) (db : ChatDb) :
    (r.isAuthenticated = true → (create_session r db).1.user = some r.userId) ∧
    (r.isAuthenticated = false →
      (create_session r db).1.user = none ∧
      ((∃ k, r.sessionKey = some k ∧ k ≠ "" ∧
          (create_session r db).1.session_id = k) ∨
        (pyTruthy r.sessionKey = false ∧
          (create_session r db).1.session_id = r.freshUuid))) := by
  constructor
  · intro h
    simp [create_session, h]
  · intro h
    refine ⟨by simp [create_session, h], ?_⟩
    rcases hk : r.sessionKey with _ | k
    · exact Or.inr ⟨by simp [pyTruthy], by simp [create_session, pyOrStr, hk]⟩
    · by_cases hke : k = ""
      · exact Or.inr ⟨by simp [pyTruthy, hk, hke],
          by simp [create_session, pyOrStr, hk, hke]⟩
      · exact Or.inl ⟨k, rfl, hke, by simp [create_session, pyOrStr, hk, hke]⟩

/-- Witness for C7_session_ownership at a concrete anonymous request with no
session key. -/
theorem C7_session_ownership_witness :
    (create_session sampleChatReq emptyChatDb).1.user = none ∧
    ((∃ k, sampleChatReq.sessionKey = some k ∧ k ≠ "" ∧
        (create_session sampleChatReq emptyChatDb).1.session_id = k) ∨
      (pyTruthy sampleChatReq.sessionKey = false ∧
        (create_session sampleChatReq emptyChatDb).1.session_id =
          sampleChatReq.freshUuid)) :=
  (C7_session_ownership sampleChatReq emptyChatDb).2 rfl

/-- Claim C10: every session row either history view queryset returns belongs
to the requester (the authenticated user, or the browser session key for an
anonymous request), and an anonymous request with no (or an empty) session
key gets an empty queryset from both views. -/
theorem C10_queryset_ownership (isAuth : Bool) (userId : Nat)
    (sessionKey : Option String) (sessions : List ChatSessionRow) :
    (∀ s : ChatSessionRow,
      (s ∈ chatHistoryQueryset isAuth userId sessionKey sessions ∨
        s ∈ chatSessionQueryset isAuth userId sessionKey sessions) →
      (isAuth = true → s.user = some userId) ∧
      (isAuth = false → ∃ k, sessionKey = some k ∧ k ≠ "" ∧ s.session_id = k)) ∧
    (isAuth = false → pyTruthy sessionKey = false →
      chatHistoryQueryset isAuth userId sessionKey sessions = [] ∧
      chatSessionQueryset isAuth userId sessionKey sessions = []) := by
  constructor
  · intro s hs
    cases isAuth
    · constructor
      · intro h
        exact absurd h (by simp)
      · intro _
        rcases hk : sessionKey with _ | k
        · simp [chatHistoryQueryset, chatSessionQueryset, pyTruthy, hk] at hs
        · by_cases hke : k = ""
          · simp [chatHistoryQueryset, chatSessionQueryset, pyTruthy, hk, hke] at hs
          · refine ⟨k, rfl, hke, ?_⟩
            rcases hs with hs | hs <;>
              exact ((by simpa [chatHistoryQueryset, chatSessionQueryset,
                pyTruthy, hk, hke, List.mem_filter] using hs) :
                  _ ∈ sessions ∧ _).2
    · constructor
      · intro _
        rcases hs with hs | hs <;>
          exact ((by simpa [chatHistoryQueryset, chatSessionQueryset,
            List.mem_filter] using hs) : _ ∈ sessions ∧ _).2
      · intro h
        exact absurd h (by simp)
  · intro h1 h2
    cases isAuth
    · simp [chatHistoryQueryset, chatSessionQueryset, h2]
    · exact absurd h1 (by simp)

/-- Witness for C10_queryset_ownership: an anonymous requester with a session
key sees only the session rows carrying that key. -/
theorem C10_queryset_ownership_witness :
    ((false : Bool) = true →
      ({ id := 1, user := none, session_id := "k1", audience_tag := "a",
         persona_tone := "t", message_count := 0 } : ChatSessionRow).user = some 9) ∧
    ((false : Bool) = false → ∃ k, (some "k1" : Option String) = some k ∧ k ≠ "" ∧
      ({ id := 1, user := none, session_id := "k1", audience_tag := "a",
         persona_tone := "t", message_count := 0 } : ChatSessionRow).session_id = k) :=
  (C10_queryset_ownership false 9 (some "k1")
      [{ id := 1, user := none, session_id := "k1", audience_tag := "a",
         persona_tone := "t", message_count := 0 }]).1
    _ (Or.inl (by simp [chatHistoryQueryset, pyTruthy]))

/-- djangoGet yields one x exactly when the filter result is the singleton
[x]. -/
theorem djangoGet_one_iff {α : Type} (l : List α) (p : α → Bool) (x : α) :
    djangoGet l p = GetResult.one x ↔ l.filter p = [x] := by
  constructor
  · intro h
    unfold djangoGet at h
    rcases hf : l.filter p with _ | ⟨y, _ | ⟨z, tl⟩⟩ <;> rw [hf] at h <;> simp_all
  · intro h
    unfold djangoGet
    rw [h]

/-- A filter of length at most one containing x is exactly [x]. -/
theorem filter_singleton_of_le_one {α : Type} (l : List α) (p : α → Bool) (x : α)
    (hlen : (l.filter p).length ≤ 1) (hx : x ∈ l) (hpx : p x = true) :
    l.filter p = [x] := by
  have hmem : x ∈ l.filter p := List.mem_filter.mpr ⟨hx, hpx⟩
  rcases hf : l.filter p with _ | ⟨y, tl⟩
  · rw [hf] at hmem
    simp at hmem
  · rw [hf] at hmem hlen
    have htl : tl = [] := by
      simp only [List.length_cons] at hlen
      exact List.eq_nil_of_length_eq_zero (by omega)
    subst htl
    simp only [List.mem_singleton] at hmem
    rw [hmem]

/-- Filtering on equality of a key is at most a singleton when the keys of
the list are pairwise distinct. -/
theorem length_filter_key_le_one {α β : Type} [DecidableEq β] (l : List α)
    (f : α → β) (h : (l.map f).Nodup) (b : β) :
    (l.filter (fun a => f a == b)).length ≤ 1 := by
  induction l with
  | nil => simp
  | cons a l ih =>
    rw [List.map_cons, List.nodup_cons] at h
    rw [List.filter_cons]
    by_cases hab : f a == b
    · have hnil : l.filter (fun a => f a == b) = [] := by
        rw [List.filter_eq_nil_iff]
        intro x hx hcontr
        have hfx : f x = b := by simpa using hcontr
        have hfa : f a = b := by simpa using hab
        exact h.1 (List.mem_map.mpr ⟨x, hx, by rw [hfx, hfa]⟩)
      simp [hab, hnil]
    · simp only [hab, if_false, Bool.false_eq_true]
      exact ih h.2

/-- When no stored token matches, a valid confirmation returns the 400
invalid-token response. -/
theorem confirm_invalid_of_no_match (now : Int) (token password : String)
    (db : AccountsDb)
    (h : db.resetTokens.filter (resetTokenMatches now token) = []) :
    (passwordResetConfirm true now token password db).2 =
      ConfirmResponse.invalidToken := by
  simp [passwordResetConfirm, djangoGet, h]

/-- Claim C8: with a valid serializer, PasswordResetConfirmView.post succeeds
exactly when some stored reset token equals the supplied string, is unused
and was created within the last hour; on success the owner's password becomes
the new one, the token is marked used and a repeat confirmation with the same
token is rejected; on any failure the database is unchanged. Hypotheses:
user ids are unique, token strings are unique, and every token's owner
exists. -/
theorem C8_reset_confirm (now : Int) (token password : String) (db : AccountsDb)
    (hids : (db.users.map UserRow.id).Nodup)
    (htok : (db.resetTokens.filter (fun t => t.token == token)).length ≤ 1)
    (hfk : ∀ t ∈ db.resetTokens, ∃ u ∈ db.users, u.id = t.userId) :
    ((passwordResetConfirm true now token password db).2 = ConfirmResponse.success ↔
      ∃ t ∈ db.resetTokens, t.token = token ∧ t.is_used = false ∧
        t.created_at ≥ now - 3600) ∧
    ((passwordResetConfirm true now token password db).2 = ConfirmResponse.success →
      ∃ t ∈ db.resetTokens, resetTokenMatches now token t = true ∧
        (∃ u ∈ db.users, u.id = t.userId ∧
          { u with password := password } ∈
            (passwordResetConfirm true now token password db).1.users) ∧
        { t with is_used := true } ∈
          (passwordResetConfirm true now token password db).1.resetTokens ∧
        (∀ now2 pw2,
          (passwordResetConfirm true now2 token pw2
            (passwordResetConfirm true now token password db).1).2 =
          ConfirmResponse.invalidToken)) ∧
    ((passwordResetConfirm true now token password db).2 ≠ ConfirmResponse.success →
      (passwordResetConfirm true now token password db).1 = db) := by
  have hmatch : ∀ t : ResetTokenRow, resetTokenMatches now token t = true ↔
      (t.token = token ∧ t.is_used = false ∧ t.created_at ≥ now - 3600) := by
    intro t
    simp [resetTokenMatches, Bool.and_assoc, and_assoc]
  have hmono : ∀ a : ResetTokenRow, resetTokenMatches now token a →
      (fun t : ResetTokenRow => t.token == token) a := by
    intro a ha
    simp only [resetTokenMatches, Bool.and_eq_true] at ha
    simpa using ha.1.1
  have hsub : (db.resetTokens.filter (resetTokenMatches now token)).length ≤ 1 :=
    le_trans (List.Sublist.length_le (List.monotone_filter_right _ hmono)) htok
  rcases hf : db.resetTokens.filter (resetTokenMatches now token) with _ | ⟨t, tl⟩
  · have hres : passwordResetConfirm true now token password db =
        (db, ConfirmResponse.invalidToken) := by
      simp [passwordResetConfirm, djangoGet, hf]
    refine ⟨?_, ?_, ?_⟩
    · rw [hres]
      constructor
      · intro h
        exact absurd h (by simp)
      · rintro ⟨t, ht, h1, h2, h3⟩
        have hmem : t ∈ db.resetTokens.filter (resetTokenMatches now token) :=
          List.mem_filter.mpr ⟨ht, (hmatch t).mpr ⟨h1, h2, h3⟩⟩
        rw [hf] at hmem
        simp at hmem
    · rw [hres]
      intro h
      exact absurd h (by simp)
    · intro _
      rw [hres]
  · have htl : tl = [] := by
      rw [hf] at hsub
      simp only [List.length_cons] at hsub
      exact List.eq_nil_of_length_eq_zero (by omega)
    subst htl
    have htmem0 : t ∈ db.resetTokens.filter (resetTokenMatches now token) := by
      rw [hf]
      simp
    have htmem : t ∈ db.resetTokens := (List.mem_filter.mp htmem0).1
    have htmatch : resetTokenMatches now token t = true :=
      (List.mem_filter.mp htmem0).2
    obtain ⟨u, humem, huid⟩ := hfk t htmem
    have huf : db.users.filter (fun v => v.id == t.userId) = [u] :=
      filter_singleton_of_le_one _ _ _
        (length_filter_key_le_one _ UserRow.id hids t.userId) humem (by simp [huid])
    have hres : passwordResetConfirm true now token password db =
        ({ users := db.users.map
            (fun v => if v.id == u.id then { v with password := password } else v),
           resetTokens := db.resetTokens.map
            (fun s => if s == t then { s with is_used := true } else s) },
          ConfirmResponse.success) := by
      simp [passwordResetConfirm, djangoGet, hf, huf]
    have hTokEq : db.resetTokens.filter (fun x => x.token == token) = [t] :=
      filter_singleton_of_le_one _ _ _ htok htmem (hmono t htmatch)
    refine ⟨?_, ?_, ?_⟩
    · rw [hres]
      simp only [true_iff]
      exact ⟨t, htmem, (hmatch t).mp htmatch⟩
    · intro _
      refine ⟨t, htmem, htmatch, ⟨u, humem, huid, ?_⟩, ?_, ?_⟩
      · rw [hres]
        exact List.mem_map.mpr ⟨u, humem, by simp⟩
      · rw [hres]
        exact List.mem_map.mpr ⟨t, htmem, by simp⟩
      · intro now2 pw2
        have hnil : ((passwordResetConfirm true now token password db).1.resetTokens).filter
            (resetTokenMatches now2 token) = [] := by
          rw [hres]
          rw [List.filter_eq_nil_iff]
          intro a ha
          obtain ⟨s, hs, rfl⟩ := List.mem_map.mp ha
          by_cases hst : s == t
          · have hseq : s = t := by simpa using hst
            subst hseq
            simp [resetTokenMatches]
          · simp only [hst, if_neg, Bool.false_eq_true, not_false_eq_true, if_false]
            intro hcontra
            have hstok : s.token = token := by
              simp only [resetTokenMatches, Bool.and_eq_true] at hcontra
              simpa using hcontra.1.1
            have hsmem : s ∈ db.resetTokens.filter (fun x => x.token == token) :=
              List.mem_filter.mpr ⟨hs, by simp [hstok]⟩
            rw [hTokEq] at hsmem
            simp only [List.mem_singleton] at hsmem
            subst hsmem
            simp at hst
        exact confirm_invalid_of_no_match now2 token pw2 _ hnil
    · intro h
      rw [hres] at h
      exact absurd rfl h

/-- Witness for C8_reset_confirm at a concrete database with one matching
fresh token: the confirmation succeeds. -/
theorem C8_reset_confirm_witness :
    (passwordResetConfirm true 2000 "tok" "new" sampleAccountsDb).2 =
      ConfirmResponse.success ↔
    ∃ t ∈ sampleAccountsDb.resetTokens, t.token = "tok" ∧ t.is_used = false ∧
      t.created_at ≥ 2000 - 3600 :=
  (C8_reset_confirm 2000 "tok" "new" sampleAccountsDb (by decide) (by decide)
    (by decide)).1

/-- Shared fact for C9: with a valid serializer and a consistent user table,
PasswordResetRequestView.post always returns the same 200 success body. -/
theorem resetRequest_response_ok (email freshToken : String) (now : Int)
    (db : AccountsDb)
    (h : (db.users.filter (fun u => u.email == email && u.is_active)).length ≤ 1) :
    (passwordResetRequest true email freshToken now db).response =
      RequestResponse.okMessage resetRequestMessage := by
  rcases hf : db.users.filter (fun u => u.email == email && u.is_active) with
    _ | ⟨u, _ | ⟨v, tl⟩⟩
  · simp [passwordResetRequest, djangoGet, hf]
  · simp [passwordResetRequest, djangoGet, hf]
  · rw [hf] at h
    simp at h

/-- Claim C9: two runs of PasswordResetRequestView.post on a valid request
that differ only in the stored accounts (one may hold an active user with the
email, the other not) produce identical responses, so the endpoint does not
reveal account existence. -/
theorem C9_request_uniform (email ft1 ft2 : String) (t1 t2 : Int)
    (db1 db2 : AccountsDb)
    (h1 : (db1.users.filter (fun u => u.email == email && u.is_active)).length ≤ 1)
    (h2 : (db2.users.filter (fun u => u.email == email && u.is_active)).length ≤ 1) :
    (passwordResetRequest true email ft1 t1 db1).response =
      (passwordResetRequest true email ft2 t2 db2).response := by
  rw [resetRequest_response_ok email ft1 t1 db1 h1,
    resetRequest_response_ok email ft2 t2 db2 h2]

/-- Witness for C9_request_uniform: a database holding the active account and
an empty one get the same response. -/
theorem C9_request_uniform_witness :
    (passwordResetRequest true "a@b.c" "tok1" 10
      { users := [{ id := 1, email := "a@b.c", is_active := true, password := "p" }],
        resetTokens := [] }).response =
    (passwordResetRequest true "a@b.c" "tok2" 20
      { users := [], resetTokens := [] }).response :=
  C9_request_uniform "a@b.c" "tok1" "tok2" 10 20 _ _ (by decide) (by decide)

end Portfolio
